import Mathlib

/-!
Shallow embedding of the input-resolution and safety-gating logic of
`server.py` (a markdown-conversion MCP server).

The embedding models:
* the Python exception values the module raises (`PyErr`),
* the POSIX path helpers the module calls (`os.path.normpath`,
  `os.path.expanduser`, `os.path.commonpath`), translated from CPython's
  `posixpath` module,
* the hostname extraction of `urllib.parse.urlparse(...).hostname` and the
  address parsing/classification of the `ipaddress` stdlib module (CPython
  3.11 semantics) used by `_is_private_ip`,
* the two request handlers `_convert_to_markdown` and `_get_markdown_file`.

External effects are made explicit: the file system is an association list
from paths to contents, the process environment is a partial map from
variable names to values, the HTTP fetch and the external conversion engine
(`markitdown`) are oracles passed in as functions, and temp-file name
generation (`tempfile.NamedTemporaryFile`) draws base names from a supply
held in the state.  The state additionally keeps two instrumentation logs
(`fetched`, `created`) recording which URLs were fetched and which temp
files were created, so that "no network access" and "transient file"
properties are directly observable.
-/

/-- The Python exception values raised by `server.py`, by constructor the
exception class, carrying `str(e)`. -/
inductive PyErr where
  | valueError (msg : String)
  | fileNotFoundError (msg : String)
  | permissionError (msg : String)
  | exception (msg : String)
deriving DecidableEq

deriving instance DecidableEq for Except

/-- The `str(e)` message of an exception. -/
def PyErr.msg : PyErr → String
  | .valueError m => m
  | .fileNotFoundError m => m
  | .permissionError m => m
  | .exception m => m

/- ## Character-list string utilities (Python `str` operations) -/

/-- Python `s.startswith(t)` (character-wise). -/
def strStartsWith (s t : String) : Bool := t.data.isPrefixOf s.data

/-- Python `s.endswith(t)` (character-wise). -/
def strEndsWith (s t : String) : Bool := t.data.isSuffixOf s.data

/-- Python `s.split(c)` for a single-character separator: groups of
characters between occurrences of `c`. -/
def splitOnChar (c : Char) (l : List Char) : List (List Char) :=
  l.foldr
    (fun ch acc =>
      match acc with
      | [] => [[ch]]
      | g :: gs => if ch = c then [] :: g :: gs else (ch :: g) :: gs)
    [[]]

/-- Python `sep.join(parts)`. -/
def joinSep (sep : String) : List String → String
  | [] => ""
  | [x] => x
  | x :: y :: xs => x ++ sep ++ joinSep sep (y :: xs)

/-- The components of `p.split('/')`, as strings. -/
def slashSplit (p : String) : List String :=
  (splitOnChar '/' p.data).map (fun l => String.mk l)

/- ## `os.path` helpers (translated from CPython `posixpath`) -/

/-- Model of `posixpath.normpath`: collapse `.` and `..` segments and repeated
slashes; empty path becomes `.`; a leading double slash (but not triple) is
preserved. -/
def normpath (path : String) : String :=
  if path = "" then "."
  else
    let initialSlashes : Nat :=
      if strStartsWith path "/" then
        if strStartsWith path "//" && !(strStartsWith path "///") then 2 else 1
      else 0
    let comps := slashSplit path
    let newComps := comps.foldl
      (fun acc comp =>
        if comp = "" || comp = "." then acc
        else if comp ≠ ".." || (initialSlashes == 0 && acc.isEmpty)
            || (!acc.isEmpty && acc.getLastD "" == "..") then acc ++ [comp]
        else if !acc.isEmpty then acc.dropLast
        else acc)
      []
    let joined := String.mk (List.replicate initialSlashes '/') ++ joinSep "/" newComps
    if joined = "" then "." else joined

/-- Python `s.rstrip('/')`. -/
def rstripSlash (s : String) : String :=
  String.mk ((s.data.reverse.dropWhile (· = '/')).reverse)

/-- Model of `posixpath.expanduser`, with the process environment passed explicitly
(the source reads `os.environ['HOME']`).  Lookups of *named* users
(`~user`) and the `pwd`-database fallback when `HOME` is unset consult the
system user database, which is outside the program; both are modelled as
"not found", in which case CPython returns the path unchanged. -/
def expanduser (env : String → Option String) (path : String) : String :=
  if !(strStartsWith path "~") then path
  else
    let rest := path.data.tail
    let j := match rest.findIdx? (· = '/') with
      | some j => j
      | none => rest.length
    if j = 0 then
      match env "HOME" with
      | none => path
      | some home =>
        let userhome := rstripSlash home
        let r := userhome ++ String.mk (rest.drop j)
        if r = "" then "/" else r
    else path

/-- Translation of `_normalize_path` from `server.py`:
`os.path.normpath(os.path.expanduser(filepath))`. -/
def normalize_path (env : String → Option String) (filepath : String) : String :=
  normpath (expanduser env filepath)

/-- Longest common component-wise list of two split paths. -/
def commonPrefixList : List String → List String → List String
  | a :: as, b :: bs => if a = b then a :: commonPrefixList as bs else []
  | _, _ => []

/-- The path components used by `posixpath.commonpath`: split on `/` and
drop empty and `.` components. -/
def commonComps (p : String) : List String :=
  (slashSplit p).filter (fun c => c ≠ "" && c ≠ ".")

/-- Model of `posixpath.commonpath`: raises `ValueError` on an empty sequence or when
absolute and relative paths are mixed; otherwise returns the longest common
sub-path (component-wise, not by string prefix). -/
def commonpath (paths : List String) : Except PyErr String :=
  match paths with
  | [] => .error (.valueError "commonpath() arg is an empty sequence")
  | p :: rest =>
    let isabs := strStartsWith p "/"
    if rest.any (fun q => strStartsWith q "/" != isabs) then
      .error (.valueError "Can't mix absolute and relative paths")
    else
      let common := rest.foldl (fun acc q => commonPrefixList acc (commonComps q)) (commonComps p)
      .ok ((if isabs then "/" else "") ++ joinSep "/" common)

/- ## File system and retrieval (`_get_markdown_file`) -/

/-- Model of `os.path.exists` over the modelled file system (an association list
from paths to file contents). -/
def pathExists (fs : List (String × String)) (p : String) : Bool :=
  (List.lookup p fs).isSome

/-- The `allowed_extensions` list of `_get_markdown_file`. -/
def allowedExtensions : List String := [".md", ".markdown"]

/-- Translation of `_get_markdown_file` from `server.py`: normalize the path, require a
markdown extension, require existence, enforce the `MD_SHARE_DIR` gate via
`os.path.commonpath`, then read and return the content.  `env` is the
process environment (`os.environ`), `fs` the file system. -/
def get_markdown_file (env : String → Option String) (fs : List (String × String))
    (filepath : String) : Except PyErr (String × String) :=
  let normPath := normalize_path env filepath
  if !(allowedExtensions.any (fun ext => strEndsWith normPath ext)) then
    .error (.valueError "Required file is not a Markdown file.")
  else if !(pathExists fs normPath) then
    .error (.fileNotFoundError "File does not exist")
  else
    let gate : Except PyErr Unit :=
      match env "MD_SHARE_DIR" with
      | none => .ok ()
      | some d =>
        if d = "" then .ok ()
        else
          let allowedShareDir := normalize_path env d
          match commonpath [normPath, allowedShareDir] with
          | .error e => .error e
          | .ok c =>
            if c = allowedShareDir then .ok ()
            else .error (.permissionError ("Only files in " ++ allowedShareDir ++ " are allowed."))
    match gate with
    | .error e => .error e
    | .ok _ => .ok (normPath, (List.lookup normPath fs).getD "")

/- ## URL hostname extraction (`urllib.parse.urlparse(url).hostname`) -/

/-- Model of the sanitisation step of `urllib.parse`: it removes ASCII tab, CR and LF from the URL before
splitting it. -/
def removeUnsafeChars (u : String) : String :=
  String.mk (u.data.filter (fun c => c ≠ '\t' && c ≠ '\r' && c ≠ '\n'))

/-- The `netloc` of a URL as computed by `urllib.parse.urlsplit` for
`http`/`https` URLs (the only ones on which `server.py` calls it, after the
scheme check): the text after `//` up to the next `/`, `?` or `#`. -/
def urlNetloc (u0 : String) : String :=
  let u := removeUnsafeChars u0
  let rest :=
    if strStartsWith u "http://" then u.data.drop 7
    else if strStartsWith u "https://" then u.data.drop 8
    else []
  String.mk (rest.takeWhile (fun c => c ≠ '/' && c ≠ '?' && c ≠ '#'))

/-- Model of `urllib.parse.urlparse(url).hostname or ""`: the part of the netloc
after the last `@`, inside square brackets if present, otherwise up to the
first `:`, lower-cased; `""` when absent. -/
def urlHostname (u : String) : String :=
  let hostinfo := (splitOnChar '@' (urlNetloc u).data).getLastD []
  let host :=
    if hostinfo.contains '[' then
      ((hostinfo.dropWhile (· ≠ '[')).drop 1).takeWhile (· ≠ ']')
    else hostinfo.takeWhile (· ≠ ':')
  String.mk (host.map Char.toLower)

/- ## `ipaddress` stdlib model (CPython 3.11 semantics) -/

/-- Decimal digit test (Python `str.isdigit` restricted to ASCII, as
`_parse_octet` requires). -/
def isAsciiDigit (c : Char) : Bool := '0' ≤ c && c ≤ '9'

/-- Hex digit test (`ipaddress._HEX_DIGITS`). -/
def isHexDigitChar (c : Char) : Bool :=
  ('0' ≤ c && c ≤ '9') || ('a' ≤ c && c ≤ 'f') || ('A' ≤ c && c ≤ 'F')

/-- Numeric value of a hex digit. -/
def hexVal (c : Char) : Nat :=
  if '0' ≤ c && c ≤ '9' then c.toNat - '0'.toNat
  else if 'a' ≤ c && c ≤ 'f' then c.toNat - 'a'.toNat + 10
  else if 'A' ≤ c && c ≤ 'F' then c.toNat - 'A'.toNat + 10
  else 0

/-- Model of `ipaddress._parse_octet`: 1–3 ASCII digits, value at most 255, no
leading zero. -/
def parseOctet (s : String) : Option Nat :=
  let cs := s.data
  if cs.isEmpty then none
  else if cs.length > 3 then none
  else if !(cs.all isAsciiDigit) then none
  else if cs.headD '0' = '0' && cs.length > 1 then none
  else
    let n := cs.foldl (fun a c => a * 10 + (c.toNat - '0'.toNat)) 0
    if n > 255 then none else some n

/-- Model of `ipaddress.IPv4Address` string parsing: exactly four dot-separated
octets. -/
def parseIPv4 (s : String) : Option Nat :=
  match (splitOnChar '.' s.data).map (fun l => parseOctet (String.mk l)) with
  | [some a, some b, some c, some d] => some (((a * 256 + b) * 256 + c) * 256 + d)
  | _ => none

/-- Model of `ipaddress._parse_hextet`: 1–4 hex digits. -/
def parseHextet (s : String) : Option Nat :=
  let cs := s.data
  if !(cs.all isHexDigitChar) then none
  else if cs.length > 4 then none
  else if cs.isEmpty then none
  else some (cs.foldl (fun a c => a * 16 + hexVal c) 0)

/-- Render a 16-bit value the way CPython's IPv6 parser re-inserts an
embedded IPv4 tail (`'%x' % v`). -/
def hextetStr (v : Nat) : String := String.mk (Nat.toDigits 16 v)

/-- Model of `ipaddress.IPv6Address` string parsing after the scope split: hextet
groups with at most one `::`, optional embedded IPv4 in the last group. -/
def parseIPv6Core (s : String) : Option Nat :=
  if s = "" then none
  else
    let parts0 := (splitOnChar ':' s.data).map (fun l => String.mk l)
    if parts0.length < 3 then none
    else
      let withV4 : Option (List String) :=
        let lastPart := parts0.getLastD ""
        if lastPart.data.contains '.' then
          match parseIPv4 lastPart with
          | none => none
          | some v =>
            some (parts0.dropLast ++ [hextetStr (v / 65536 % 65536), hextetStr (v % 65536)])
        else some parts0
      match withV4 with
      | none => none
      | some parts =>
        if parts.length > 9 then none
        else
          let innerEmpties := (List.range parts.length).filter
            (fun i => decide (0 < i) && decide (i < parts.length - 1) && (parts.getD i "?") == "")
          let headEmpty := (parts.headD "?") == ""
          let lastEmpty := (parts.getLastD "?") == ""
          match innerEmpties with
          | [] =>
            if parts.length ≠ 8 then none
            else if headEmpty || lastEmpty then none
            else
              (parts.map parseHextet).foldl
                (fun acc h? => match acc, h? with
                  | some a, some h => some (a * 65536 + h)
                  | _, _ => none)
                (some 0)
          | [i] =>
            if headEmpty && i ≠ 1 then none
            else if lastEmpty && parts.length - i - 2 ≠ 0 then none
            else
              let partsHi := if headEmpty then i - 1 else i
              let partsLo := if lastEmpty then parts.length - i - 2 else parts.length - i - 1
              let skipped := 8 - (partsHi + partsLo)
              if partsHi + partsLo > 7 then none
              else
                let hiVals := (parts.take partsHi).map parseHextet
                let loVals := (parts.drop (parts.length - partsLo)).map parseHextet
                let combine (init : Option Nat) (vs : List (Option Nat)) : Option Nat :=
                  vs.foldl
                    (fun acc h? => match acc, h? with
                      | some a, some h => some (a * 65536 + h)
                      | _, _ => none)
                    init
                match combine (some 0) hiVals with
                | none => none
                | some hi =>
                  combine (some (hi * 65536 ^ skipped)) loVals
          | _ => none

/-- Model of `ipaddress.IPv6Address` string parsing including the `%scope` split. -/
def parseIPv6 (s : String) : Option Nat :=
  let cs := s.data
  if cs.contains '%' then
    let addr := cs.takeWhile (· ≠ '%')
    let scope := (cs.dropWhile (· ≠ '%')).drop 1
    if scope.isEmpty || scope.contains '%' then none
    else parseIPv6Core (String.mk addr)
  else parseIPv6Core s

/-- A parsed IP address (`ipaddress.IPv4Address` or `IPv6Address`), as its
numeric value. -/
inductive IPAddr where
  | v4 (n : Nat)
  | v6 (n : Nat)
deriving DecidableEq

/-- Model of `ipaddress.ip_address`: try IPv4, then IPv6, else `ValueError`
(modelled as `none`). -/
def ip_address (s : String) : Option IPAddr :=
  match parseIPv4 s with
  | some n => some (.v4 n)
  | none =>
    match parseIPv6 s with
    | some n => some (.v6 n)
    | none => none

/-- Membership of an IPv4 numeric address in a CIDR network: the top
`pfx` bits agree with the network address. -/
def inNet4 (net pfx n : Nat) : Bool := n / 2 ^ (32 - pfx) == net / 2 ^ (32 - pfx)

/-- IPv4 numeric value from dotted-quad components. -/
def ipv4Of (a b c d : Nat) : Nat := ((a * 256 + b) * 256 + c) * 256 + d

/-- Membership of an IPv6 numeric address in a CIDR network. -/
def inNet6 (net pfx n : Nat) : Bool := n / 2 ^ (128 - pfx) == net / 2 ^ (128 - pfx)

/-- IPv6 numeric value from eight hextets. -/
def ipv6Of (h0 h1 h2 h3 h4 h5 h6 h7 : Nat) : Nat :=
  [h0, h1, h2, h3, h4, h5, h6, h7].foldl (fun a h => a * 65536 + h) 0

/-- Model of `IPv4Address.is_private` (CPython 3.11 `_private_networks` for IPv4,
the IANA special-purpose registry ranges). -/
def isPrivate4 (n : Nat) : Bool :=
  inNet4 (ipv4Of 0 0 0 0) 8 n || inNet4 (ipv4Of 10 0 0 0) 8 n
    || inNet4 (ipv4Of 127 0 0 0) 8 n || inNet4 (ipv4Of 169 254 0 0) 16 n
    || inNet4 (ipv4Of 172 16 0 0) 12 n || inNet4 (ipv4Of 192 0 0 0) 29 n
    || inNet4 (ipv4Of 192 0 0 170) 31 n || inNet4 (ipv4Of 192 0 2 0) 24 n
    || inNet4 (ipv4Of 192 168 0 0) 16 n || inNet4 (ipv4Of 198 18 0 0) 15 n
    || inNet4 (ipv4Of 198 51 100 0) 24 n || inNet4 (ipv4Of 203 0 113 0) 24 n
    || inNet4 (ipv4Of 240 0 0 0) 4 n || inNet4 (ipv4Of 255 255 255 255) 32 n

/-- Model of `IPv6Address.is_private` (CPython 3.11 `_private_networks` for IPv6;
sub-ranges of `2001::/23` that appear separately in CPython's list are
omitted as redundant for the union). -/
def isPrivate6 (n : Nat) : Bool :=
  inNet6 (ipv6Of 0 0 0 0 0 0 0 1) 128 n || inNet6 (ipv6Of 0 0 0 0 0 0 0 0) 128 n
    || inNet6 (ipv6Of 0 0 0 0 0 0xffff 0 0) 96 n || inNet6 (ipv6Of 0x100 0 0 0 0 0 0 0) 64 n
    || inNet6 (ipv6Of 0x2001 0 0 0 0 0 0 0) 23 n || inNet6 (ipv6Of 0x2001 0xdb8 0 0 0 0 0 0) 32 n
    || inNet6 (ipv6Of 0xfc00 0 0 0 0 0 0 0) 7 n || inNet6 (ipv6Of 0xfe80 0 0 0 0 0 0 0) 10 n

/-- Model of `ip.is_private`, dispatching on the address family. -/
def IPAddr.isPrivate : IPAddr → Bool
  | .v4 n => isPrivate4 n
  | .v6 n => isPrivate6 n

/-- Model of `ip.is_global` (CPython 3.11): for IPv4, not in the shared address
space `100.64.0.0/10` and not private; for IPv6, not private. -/
def IPAddr.isGlobal : IPAddr → Bool
  | .v4 n => !(inNet4 (ipv4Of 100 64 0 0) 10 n) && !(isPrivate4 n)
  | .v6 n => !(isPrivate6 n)

/-- Translation of `_is_private_ip` from `server.py`: parse the hostname with
`ipaddress.ip_address`; on `ValueError` (not a literal IP) return `False`,
otherwise return `ip.is_private`. -/
def is_private_ip (hostname : String) : Bool :=
  match ip_address hostname with
  | some ip => ip.isPrivate
  | none => false

/-- The address ranges named by the specification: RFC 1918, loopback and
link-local for IPv4; unique-local, loopback and link-local for IPv6. -/
def IPAddr.inSpecPrivateRanges : IPAddr → Bool
  | .v4 n => inNet4 (ipv4Of 10 0 0 0) 8 n || inNet4 (ipv4Of 172 16 0 0) 12 n
      || inNet4 (ipv4Of 192 168 0 0) 16 n || inNet4 (ipv4Of 127 0 0 0) 8 n
      || inNet4 (ipv4Of 169 254 0 0) 16 n
  | .v6 n => inNet6 (ipv6Of 0 0 0 0 0 0 0 1) 128 n
      || inNet6 (ipv6Of 0xfc00 0 0 0 0 0 0 0) 7 n
      || inNet6 (ipv6Of 0xfe80 0 0 0 0 0 0 0) 10 n

/-- The path component of a URL (`urllib.parse.urlsplit(url).path` for
`http`/`https` URLs): the text after the netloc up to the query or
fragment.  This is the notion the specification's transient-file-extension
sentence refers to; the source instead tests the full URL string. -/
def urlPathComponent (u0 : String) : String :=
  let u := removeUnsafeChars u0
  let rest :=
    if strStartsWith u "http://" then u.data.drop 7
    else if strStartsWith u "https://" then u.data.drop 8
    else []
  let afterNetloc := rest.dropWhile (fun c => c ≠ '/' && c ≠ '?' && c ≠ '#')
  String.mk (afterNetloc.takeWhile (fun c => c ≠ '?' && c ≠ '#'))

/- ## Conversion (`_convert_to_markdown`) -/

/-- The effect state of a conversion call: the file system, the supply of
fresh base names used by `tempfile.NamedTemporaryFile` (the chosen suffix
is appended to the drawn base name), and two instrumentation logs — the
URLs passed to the HTTP fetch and the temp-file names created. -/
structure ConvState where
  fs : List (String × String)
  supply : List String
  fetched : List String
  created : List String
deriving DecidableEq

/-- Python truthiness of an optional string argument (`if url:` /
`elif filepath:`): present and non-empty. -/
def isTruthy : Option String → Bool
  | none => false
  | some s => s != ""

/-- Translation of `_save_to_temp_file` from `server.py`: `extension = suggested_extension
or "md"`; a fresh temp file named with suffix `.{extension}` is created
with the given content.  Returns the file name and the updated state. -/
def save_to_temp_file (σ : ConvState) (content : String)
    (suggestedExtension : Option String) : String × ConvState :=
  let extension :=
    match suggestedExtension with
    | some e => if e = "" then "md" else e
    | none => "md"
  let name := σ.supply.headD "tmp" ++ "." ++ extension
  (name,
   { σ with
     fs := (name, content) :: σ.fs
     supply := σ.supply.tail
     created := σ.created ++ [name] })

/-- Lines 122–133 of `server.py`: run the conversion engine on
`input_path`, save the markdown text to a fresh `.md` temp file, then
delete the input file if it was temporary and still exists.  `engine` is
the oracle for `markitdown.MarkItDown().convert(input_path).text` (an
error value models the engine raising). -/
def convertStage (engine : String → Except PyErr String) (inputPath : String)
    (isTemporary : Bool) (σ : ConvState) :
    Except PyErr (String × String) × ConvState :=
  match engine inputPath with
  | .error e => (.error e, σ)
  | .ok markdownText =>
    let save := save_to_temp_file σ markdownText (some "md")
    let outputPath := save.1
    let σ1 := save.2
    let σ2 :=
      if isTemporary && pathExists σ1.fs inputPath then
        { σ1 with fs := σ1.fs.filter (fun kv => kv.1 != inputPath) }
      else σ1
    (.ok (outputPath, markdownText), σ2)

/-- The body of `_convert_to_markdown` (inside its `try`): URL branch with
scheme check, private-IP check, fetch, extension inference and temp save;
file branch; or the neither-provided error.  `fetch` is the oracle for
`_fetch_url_content` (an error value models `httpx` raising). -/
def convertBody (fetch : String → Except PyErr String)
    (engine : String → Except PyErr String)
    (filepath url : Option String) (σ : ConvState) :
    Except PyErr (String × String) × ConvState :=
  if isTruthy url then
    let u := url.getD ""
    if !(strStartsWith u "http://" || strStartsWith u "https://") then
      (.error (.valueError "Only http:// and https:// URLs are allowed."), σ)
    else if is_private_ip (urlHostname u) then
      (.error (.valueError ("Fetching " ++ u ++ " is potentially dangerous, aborting.")), σ)
    else
      let σ0 := { σ with fetched := σ.fetched ++ [u] }
      match fetch u with
      | .error e => (.error e, σ0)
      | .ok content =>
        let extension := if strEndsWith u ".pdf" then some "pdf" else none
        let save := save_to_temp_file σ0 content extension
        convertStage engine save.1 true save.2
  else if isTruthy filepath then
    convertStage engine (filepath.getD "") false σ
  else
    (.error (.valueError "Either filepath or url must be provided"), σ)

/-- The `except Exception` wrapper of `_convert_to_markdown`: every raised
error is re-raised as `Exception("Error processing to Markdown: " +
str(e))`. -/
def wrapResult (r : Except PyErr (String × String) × ConvState) :
    Except PyErr (String × String) × ConvState :=
  match r with
  | (.error e, σ) => (.error (.exception ("Error processing to Markdown: " ++ e.msg)), σ)
  | ok => ok

/-- Translation of `_convert_to_markdown` from `server.py`. -/
def convert_to_markdown (fetch : String → Except PyErr String)
    (engine : String → Except PyErr String)
    (filepath url : Option String) (σ : ConvState) :
    Except PyErr (String × String) × ConvState :=
  wrapResult (convertBody fetch engine filepath url σ)

/-- The share-root gate of `_get_markdown_file` lets a normalized path
through: no share root is configured, or it is empty (falsy), or the
longest common path of the path and the normalized share root is the share
root itself. -/
def sharePasses (env : String → Option String) (normPath : String) : Prop :=
  match env "MD_SHARE_DIR" with
  | none => True
  | some d => d = "" ∨ commonpath [normPath, normalize_path env d] = .ok (normalize_path env d)

/- ## Concrete environments and file systems used by example-bearing claims -/

/-- A process environment with `MD_SHARE_DIR=/srv/md` and nothing else. -/
def envSrv : String → Option String :=
  fun k => if k = "MD_SHARE_DIR" then some "/srv/md" else none

/-- A file system holding one markdown file inside the share root and one
in a sibling directory sharing the string prefix `/srv/md`. -/
def fsSrv : List (String × String) :=
  [("/srv/md/sub/file.md", "A"), ("/srv/mdx/file.md", "B")]

/- ## Sanity checks of the embedding on concrete inputs -/

example : urlHostname "http://10.0.0.1/x" = "10.0.0.1" := by decide
example : urlHostname "https://User@Example.COM:8080/p?q#f" = "example.com" := by decide
example : urlHostname "http://[::1]:80/x" = "::1" := by decide
example : ip_address "10.0.0.1" = some (.v4 (ipv4Of 10 0 0 1)) := by decide
example : ip_address "example.com" = none := by decide
example : ip_address "::1" = some (.v6 1) := by decide
example : ip_address "2001:db8::ff" = some (.v6 (ipv6Of 0x2001 0xdb8 0 0 0 0 0 0xff)) := by decide
example : ip_address "::ffff:8.8.8.8" = some (.v6 (ipv6Of 0 0 0 0 0 0xffff 0x808 0x808)) := by decide
example : ip_address "1::2::3" = none := by decide
example : ip_address "1.2.3.04" = none := by decide
example : ip_address "256.1.1.1" = none := by decide
example : is_private_ip "192.168.1.5" = true := by decide
example : is_private_ip "8.8.8.8" = false := by decide
example : is_private_ip "fe80::1" = true := by decide
example : is_private_ip "localhost" = false := by decide
example : normpath "/srv/md/sub/../file.md" = "/srv/md/file.md" := by decide
example :
    convert_to_markdown (fun _ => .ok "B") (fun _ => .ok "T") none
      (some "ftp://example.com/a") ⟨[], ["t0", "t1"], [], []⟩ =
    (.error (.exception "Error processing to Markdown: Only http:// and https:// URLs are allowed."),
     ⟨[], ["t0", "t1"], [], []⟩) := by decide
example :
    convert_to_markdown (fun _ => .ok "B") (fun _ => .ok "T") none
      (some "http://192.168.0.7/doc") ⟨[], ["t0", "t1"], [], []⟩ =
    (.error (.exception
       "Error processing to Markdown: Fetching http://192.168.0.7/doc is potentially dangerous, aborting."),
     ⟨[], ["t0", "t1"], [], []⟩) := by decide
example :
    convert_to_markdown (fun _ => .ok "B") (fun _ => .ok "T") none
      (some "https://example.com/doc.pdf") ⟨[], ["t0", "t1"], [], []⟩ =
    (.ok ("t1.md", "T"),
     ⟨[("t1.md", "T")], [], ["https://example.com/doc.pdf"], ["t0.pdf", "t1.md"]⟩) := by decide
example :
    convert_to_markdown (fun _ => .ok "B") (fun _ => .error (.exception "boom")) none
      (some "https://example.com/doc") ⟨[], ["t0", "t1"], [], []⟩ =
    (.error (.exception "Error processing to Markdown: boom"),
     ⟨[("t0.md", "B")], ["t1"], ["https://example.com/doc"], ["t0.md"]⟩) := by decide
example :
    convert_to_markdown (fun _ => .ok "B") (fun _ => .ok "T") (some "report.docx") none
      ⟨[], ["t0", "t1"], [], []⟩ =
    (.ok ("t0.md", "T"), ⟨[("t0.md", "T")], ["t1"], [], ["t0.md"]⟩) := by decide
example : normpath "" = "." := by decide
example : normpath "//a/b/" = "//a/b" := by decide
example : commonpath ["/srv/md/sub/file.md", "/srv/md"] = .ok "/srv/md" := by decide
example : commonpath ["/srv/mdx/file.md", "/srv/md"] = .ok "/srv" := by decide
example : commonpath ["rel/a.md", "/srv/md"] =
    .error (.valueError "Can't mix absolute and relative paths") := by decide
example : expanduser (fun k => if k = "HOME" then some "/home/u/" else none) "~/x.md"
    = "/home/u/x.md" := by decide

/- ## Theorems -/

/-- C1: with a share root configured, retrieval (past the extension and
existence checks) fails with `PermissionDenied` exactly when
`os.path.commonpath` of the normalized path and the normalized share root
differs from the share root — longest-common-path containment, not string
prefix matching.  In particular, with share root `/srv/md`, retrieving
`/srv/md/sub/file.md` is not rejected by this check while retrieving
`/srv/mdx/file.md` fails with `PermissionDenied` despite sharing the string
prefix `/srv/md`. -/
theorem C1_share_root_gate :
    (∀ (env : String → Option String) (fs : List (String × String)) (p d c : String),
      env "MD_SHARE_DIR" = some d → d ≠ "" →
      allowedExtensions.any (fun ext => strEndsWith (normalize_path env p) ext) = true →
      pathExists fs (normalize_path env p) = true →
      commonpath [normalize_path env p, normalize_path env d] = .ok c →
      (get_markdown_file env fs p =
          .error (.permissionError ("Only files in " ++ normalize_path env d ++ " are allowed."))
        ↔ c ≠ normalize_path env d))
    ∧ get_markdown_file envSrv fsSrv "/srv/md/sub/file.md" = .ok ("/srv/md/sub/file.md", "A")
    ∧ get_markdown_file envSrv fsSrv "/srv/mdx/file.md" =
        .error (.permissionError "Only files in /srv/md are allowed.") := by
  refine ⟨?_, by decide, by decide⟩
  intro env fs p d c henv hd hext hex hcp
  by_cases hc : c = normalize_path env d <;>
    simp [get_markdown_file, henv, hd, hext, hex, hcp, hc]

/-- Witness for C1: the gate theorem applied at the concrete sibling
directory example. -/
theorem C1_share_root_gate_witness :
    (envSrv "MD_SHARE_DIR" = some "/srv/md")
    ∧ commonpath [normalize_path envSrv "/srv/mdx/file.md", normalize_path envSrv "/srv/md"]
        = .ok "/srv"
    ∧ (get_markdown_file envSrv fsSrv "/srv/mdx/file.md" =
          .error (.permissionError ("Only files in " ++ normalize_path envSrv "/srv/md" ++ " are allowed."))
        ↔ "/srv" ≠ normalize_path envSrv "/srv/md") :=
  ⟨by decide, by decide,
   C1_share_root_gate.1 envSrv fsSrv "/srv/mdx/file.md" "/srv/md" "/srv"
     (by decide) (by decide) (by decide) (by decide) (by decide)⟩

/-- C5: a retrieval whose normalized path lacks an accepted markdown
extension fails with `InvalidInput` (`ValueError`) for every file system,
so regardless of existence; one whose normalized path has an accepted
extension but does not exist fails with `NotFound`
(`FileNotFoundError`). -/
theorem C5_extension_then_existence :
    (∀ (env : String → Option String) (fs : List (String × String)) (p : String),
      allowedExtensions.any (fun ext => strEndsWith (normalize_path env p) ext) = false →
      get_markdown_file env fs p = .error (.valueError "Required file is not a Markdown file."))
    ∧ (∀ (env : String → Option String) (fs : List (String × String)) (p : String),
      allowedExtensions.any (fun ext => strEndsWith (normalize_path env p) ext) = true →
      List.lookup (normalize_path env p) fs = none →
      get_markdown_file env fs p = .error (.fileNotFoundError "File does not exist")) := by
  constructor
  · intro env fs p h
    simp [get_markdown_file, h]
  · intro env fs p h1 h2
    simp [get_markdown_file, pathExists, h1, h2]

/-- Witness for C5: a `.txt` path is rejected as `InvalidInput` on a
file system that contains it; a missing `.md` path yields `NotFound`. -/
theorem C5_extension_then_existence_witness :
    (allowedExtensions.any
        (fun ext => strEndsWith (normalize_path (fun _ => none) "/a/b.txt") ext) = false
      ∧ get_markdown_file (fun _ => none) [("/a/b.txt", "X")] "/a/b.txt" =
          .error (.valueError "Required file is not a Markdown file."))
    ∧ (allowedExtensions.any
        (fun ext => strEndsWith (normalize_path (fun _ => none) "/a/b.md") ext) = true
      ∧ get_markdown_file (fun _ => none) [] "/a/b.md" =
          .error (.fileNotFoundError "File does not exist")) :=
  ⟨⟨by decide, C5_extension_then_existence.1 (fun _ => none) [("/a/b.txt", "X")] "/a/b.txt" (by decide)⟩,
   ⟨by decide, C5_extension_then_existence.2 (fun _ => none) [] "/a/b.md" (by decide) (by decide)⟩⟩

/-- C10: with an absolute share root configured and a relative normalized
request path that passes the extension and existence checks,
`os.path.commonpath` cannot mix absolute and relative paths, so retrieval
fails with that `ValueError` — not with `PermissionDenied`. -/
theorem C10_mixed_paths_value_error :
    ∀ (env : String → Option String) (fs : List (String × String)) (p d : String),
      env "MD_SHARE_DIR" = some d → d ≠ "" →
      strStartsWith (normalize_path env p) "/" = false →
      strStartsWith (normalize_path env d) "/" = true →
      allowedExtensions.any (fun ext => strEndsWith (normalize_path env p) ext) = true →
      pathExists fs (normalize_path env p) = true →
      get_markdown_file env fs p = .error (.valueError "Can't mix absolute and relative paths")
      ∧ (∀ m, get_markdown_file env fs p ≠ .error (.permissionError m)) := by
  intro env fs p d henv hd hrel habs hext hex
  have hres : get_markdown_file env fs p =
      .error (.valueError "Can't mix absolute and relative paths") := by
    simp [get_markdown_file, henv, hd, hext, hex, commonpath, hrel, habs]
  exact ⟨hres, fun m h => by rw [hres] at h; exact PyErr.noConfusion (Except.error.inj h)⟩

/-- Witness for C10: share root `/srv/md`, existing relative path
`rel/a.md`. -/
theorem C10_mixed_paths_value_error_witness :
    (strStartsWith (normalize_path envSrv "rel/a.md") "/" = false)
    ∧ pathExists [("rel/a.md", "X")] (normalize_path envSrv "rel/a.md") = true
    ∧ get_markdown_file envSrv [("rel/a.md", "X")] "rel/a.md" =
        .error (.valueError "Can't mix absolute and relative paths") :=
  ⟨by decide, by decide,
   (C10_mixed_paths_value_error envSrv [("rel/a.md", "X")] "rel/a.md" "/srv/md"
     (by decide) (by decide) (by decide) (by decide) (by decide) (by decide)).1⟩

/-- The function `expanduser` reads the environment only through `HOME`. -/
theorem expanduser_env_congr (env1 env2 : String → Option String)
    (h : env1 "HOME" = env2 "HOME") (p : String) :
    expanduser env1 p = expanduser env2 p := by
  simp [expanduser, h]

/-- The function `_normalize_path` reads the environment only through `HOME`. -/
theorem normalize_path_env_congr (env1 env2 : String → Option String)
    (h : env1 "HOME" = env2 "HOME") (p : String) :
    normalize_path env1 p = normalize_path env2 p := by
  simp [normalize_path, expanduser_env_congr env1 env2 h p]

/-- C8 counterexample: the share-root value is read from the environment
inside `_get_markdown_file` on every call, not once at startup; the same
retrieval of the same file under two environment values (share root unset
vs. `/opt/other`) gives different outcomes, so a change to the environment
variable after startup does affect subsequent retrievals. -/
theorem C8_counterexample_env_change_affects_retrieval :
    get_markdown_file (fun _ => none) [("/srv/doc.md", "T")] "/srv/doc.md"
        = .ok ("/srv/doc.md", "T")
    ∧ get_markdown_file (fun k => if k = "MD_SHARE_DIR" then some "/opt/other" else none)
        [("/srv/doc.md", "T")] "/srv/doc.md" =
        .error (.permissionError "Only files in /opt/other are allowed.") :=
  ⟨by decide, by decide⟩

/-- C8 amended: the share-root restriction is re-read from the process
environment at each retrieval call, and a retrieval depends on the
environment only through the values of `MD_SHARE_DIR` and `HOME` current
at that call (the gating mutates nothing, so retrievals under an unchanged
environment are gated against the same value). -/
theorem C8_amended_share_root_read_per_call :
    ∀ (env1 env2 : String → Option String) (fs : List (String × String)) (p : String),
      env1 "MD_SHARE_DIR" = env2 "MD_SHARE_DIR" → env1 "HOME" = env2 "HOME" →
      get_markdown_file env1 fs p = get_markdown_file env2 fs p := by
  intro env1 env2 fs p hs hh
  have hn : ∀ q, normalize_path env1 q = normalize_path env2 q :=
    normalize_path_env_congr env1 env2 hh
  simp only [get_markdown_file, hs, hn]

/-- Witness for the amended C8: two environments that agree on
`MD_SHARE_DIR` and `HOME` but differ on `PORT` give the same retrieval
result. -/
theorem C8_amended_share_root_read_per_call_witness :
    ((fun (_ : String) => (none : Option String)) "MD_SHARE_DIR"
        = (fun k => if k = "PORT" then some "3000" else none) "MD_SHARE_DIR")
    ∧ ((fun (_ : String) => (none : Option String)) "HOME"
        = (fun k => if k = "PORT" then some "3000" else none) "HOME")
    ∧ get_markdown_file (fun _ => none) [("/srv/doc.md", "T")] "/srv/doc.md"
        = get_markdown_file (fun k => if k = "PORT" then some "3000" else none)
            [("/srv/doc.md", "T")] "/srv/doc.md" :=
  ⟨by decide, by decide,
   C8_amended_share_root_read_per_call (fun _ => none)
     (fun k => if k = "PORT" then some "3000" else none)
     [("/srv/doc.md", "T")] "/srv/doc.md" (by decide) (by decide)⟩

/-- C4: a conversion request whose URL does not start with `http://` or
`https://` fails with `InvalidInput` and the state is returned unchanged —
for every fetch oracle — so no fetch is performed (`fetched` log unchanged)
and no transient file is created (`created` log and file system
unchanged). -/
theorem C4_bad_scheme_rejected_before_fetch :
    ∀ (fetch engine : String → Except PyErr String) (fp : Option String)
      (u : String) (σ : ConvState),
      u ≠ "" →
      strStartsWith u "http://" = false → strStartsWith u "https://" = false →
      convert_to_markdown fetch engine fp (some u) σ =
        (.error (.exception "Error processing to Markdown: Only http:// and https:// URLs are allowed."), σ) := by
  intro fetch engine fp u σ hu h1 h2
  simp [convert_to_markdown, convertBody, isTruthy, wrapResult, PyErr.msg, hu, h1, h2]

/-- Witness for C4: the spec's example `ftp://example.com/a`. -/
theorem C4_bad_scheme_rejected_before_fetch_witness :
    (strStartsWith "ftp://example.com/a" "http://" = false)
    ∧ (strStartsWith "ftp://example.com/a" "https://" = false)
    ∧ convert_to_markdown (fun _ => .ok "B") (fun _ => .ok "T") none
        (some "ftp://example.com/a") ⟨[], ["t0", "t1"], [], []⟩ =
      (.error (.exception "Error processing to Markdown: Only http:// and https:// URLs are allowed."),
       ⟨[], ["t0", "t1"], [], []⟩) :=
  ⟨by decide, by decide,
   C4_bad_scheme_rejected_before_fetch (fun _ => .ok "B") (fun _ => .ok "T") none
     "ftp://example.com/a" ⟨[], ["t0", "t1"], [], []⟩
     (by decide) (by decide) (by decide)⟩

/-- C9: when both `url` and `filepath` are supplied (non-empty), the call
behaves exactly like the url-only call — the filepath is silently ignored
and no both-supplied `InvalidInput` is raised; when only a filepath is
supplied the call goes straight to the conversion stage; the
"Either filepath or url must be provided" error is raised exactly when
both are absent (missing or empty). -/
theorem C9_url_branch_wins :
    (∀ (fetch engine : String → Except PyErr String) (f u : String) (σ : ConvState),
      u ≠ "" →
      convert_to_markdown fetch engine (some f) (some u) σ =
        convert_to_markdown fetch engine none (some u) σ)
    ∧ (∀ (fetch engine : String → Except PyErr String) (f : String)
        (u? : Option String) (σ : ConvState),
      isTruthy u? = false → f ≠ "" →
      convert_to_markdown fetch engine (some f) u? σ =
        wrapResult (convertStage engine f false σ))
    ∧ (∀ (fetch engine : String → Except PyErr String) (f? u? : Option String) (σ : ConvState),
      isTruthy u? = false → isTruthy f? = false →
      convert_to_markdown fetch engine f? u? σ =
        (.error (.exception "Error processing to Markdown: Either filepath or url must be provided"), σ)) := by
  refine ⟨?_, ?_, ?_⟩
  · intro fetch engine f u σ hu
    simp [convert_to_markdown, convertBody, isTruthy, hu]
  · intro fetch engine f u? σ hu hf
    have hf' : isTruthy (some f) = true := by simp [isTruthy, hf]
    simp [convert_to_markdown, convertBody, hu, hf']
  · intro fetch engine f? u? σ hu hf
    simp [convert_to_markdown, convertBody, wrapResult, PyErr.msg, hu, hf]

/-- Witness for C9: both provided — the url branch runs and the filepath
is ignored; both absent — the either-provided error. -/
theorem C9_url_branch_wins_witness :
    convert_to_markdown (fun _ => .ok "B") (fun _ => .ok "T")
        (some "report.docx") (some "https://example.com/doc.pdf") ⟨[], ["t0", "t1"], [], []⟩ =
      convert_to_markdown (fun _ => .ok "B") (fun _ => .ok "T")
        none (some "https://example.com/doc.pdf") ⟨[], ["t0", "t1"], [], []⟩
    ∧ convert_to_markdown (fun _ => .ok "B") (fun _ => .ok "T") none none
        ⟨[], ["t0", "t1"], [], []⟩ =
      (.error (.exception "Error processing to Markdown: Either filepath or url must be provided"),
       ⟨[], ["t0", "t1"], [], []⟩) :=
  ⟨C9_url_branch_wins.1 (fun _ => .ok "B") (fun _ => .ok "T")
     "report.docx" "https://example.com/doc.pdf" ⟨[], ["t0", "t1"], [], []⟩ (by decide),
   C9_url_branch_wins.2.2 (fun _ => .ok "B") (fun _ => .ok "T") none none
     ⟨[], ["t0", "t1"], [], []⟩ (by decide) (by decide)⟩

/-- The spec's private/loopback/link-local ranges are contained in the
set classified private by the `ipaddress` module. -/
theorem inSpecPrivateRanges_isPrivate (ip : IPAddr) (h : ip.inSpecPrivateRanges = true) :
    ip.isPrivate = true := by
  cases ip <;>
    simp [IPAddr.inSpecPrivateRanges, IPAddr.isPrivate, isPrivate4, isPrivate6] at h ⊢ <;>
    tauto

/-- A globally-routable address is never classified private. -/
theorem isGlobal_not_isPrivate (ip : IPAddr) (h : ip.isGlobal = true) :
    ip.isPrivate = false := by
  cases ip <;> simp [IPAddr.isGlobal, IPAddr.isPrivate] at h ⊢ <;> tauto

/-- The exception wrapper does not change the state component. -/
theorem wrapResult_snd (r : Except PyErr (String × String) × ConvState) :
    (wrapResult r).2 = r.2 := by
  obtain ⟨a, σ⟩ := r
  cases a <;> rfl

/-- The conversion stage never touches the fetch log. -/
theorem convertStage_fetched (engine : String → Except PyErr String)
    (ip : String) (tmp : Bool) (σ : ConvState) :
    ((convertStage engine ip tmp σ).2).fetched = σ.fetched := by
  rw [convertStage]
  cases engine ip
  · rfl
  · simp [save_to_temp_file, apply_ite ConvState.fetched]

/-- C2: after the scheme check, a URL whose hostname is a literal IP
address in a private (RFC 1918 / unique-local), loopback or link-local
range fails with `UnsafeTarget` with the state unchanged — for every fetch
oracle, so before any fetch; a URL whose hostname is a literal global IP
address or is not a literal IP address at all (a DNS name, which is never
resolved) passes the check and the URL is handed to the fetch. -/
theorem C2_private_ip_policy :
    (∀ (fetch engine : String → Except PyErr String) (fp : Option String)
       (u : String) (σ : ConvState) (ip : IPAddr),
      u ≠ "" →
      (strStartsWith u "http://" || strStartsWith u "https://") = true →
      ip_address (urlHostname u) = some ip →
      ip.inSpecPrivateRanges = true →
      convert_to_markdown fetch engine fp (some u) σ =
        (.error (.exception ("Error processing to Markdown: " ++
           ("Fetching " ++ u ++ " is potentially dangerous, aborting."))), σ))
    ∧ (∀ (fetch engine : String → Except PyErr String) (fp : Option String)
       (u : String) (σ : ConvState),
      u ≠ "" →
      (strStartsWith u "http://" || strStartsWith u "https://") = true →
      (ip_address (urlHostname u) = none
        ∨ ∃ ip, ip_address (urlHostname u) = some ip ∧ ip.isGlobal = true) →
      ((convert_to_markdown fetch engine fp (some u) σ).2).fetched = σ.fetched ++ [u]) := by
  constructor
  · intro fetch engine fp u σ ip hu hsch hip hr
    have hpriv : is_private_ip (urlHostname u) = true := by
      rw [is_private_ip, hip]
      exact inSpecPrivateRanges_isPrivate ip hr
    simp [convert_to_markdown, convertBody, isTruthy, hu, hsch, hpriv, wrapResult, PyErr.msg]
  · intro fetch engine fp u σ hu hsch h
    have hpriv : is_private_ip (urlHostname u) = false := by
      rcases h with hnone | ⟨ip, hip, hg⟩
      · rw [is_private_ip, hnone]
      · rw [is_private_ip, hip]
        exact isGlobal_not_isPrivate ip hg
    rw [convert_to_markdown, wrapResult_snd]
    simp only [convertBody, isTruthy, Option.getD]
    have hu' : (u != "") = true := by simp [hu]
    rw [hu']
    simp only [hsch, Bool.not_true, if_true, if_false, Bool.false_eq_true, hpriv]
    cases fetch u
    · rfl
    · rw [convertStage_fetched]
      simp [save_to_temp_file]

/-- Witness for C2: `http://10.0.0.1/x` (RFC 1918 literal) is rejected
with the unsafe-target error and an unchanged state; `http://8.8.8.8/x`
(global literal) reaches the fetch. -/
theorem C2_private_ip_policy_witness :
    (ip_address (urlHostname "http://10.0.0.1/x") = some (.v4 (ipv4Of 10 0 0 1)))
    ∧ (IPAddr.inSpecPrivateRanges (.v4 (ipv4Of 10 0 0 1)) = true)
    ∧ convert_to_markdown (fun _ => .ok "B") (fun _ => .ok "T") none
        (some "http://10.0.0.1/x") ⟨[], ["t0", "t1"], [], []⟩ =
      (.error (.exception ("Error processing to Markdown: " ++
         ("Fetching " ++ "http://10.0.0.1/x" ++ " is potentially dangerous, aborting."))),
       ⟨[], ["t0", "t1"], [], []⟩)
    ∧ ((convert_to_markdown (fun _ => .ok "B") (fun _ => .ok "T") none
        (some "http://8.8.8.8/x") ⟨[], ["t0", "t1"], [], []⟩).2).fetched =
        [] ++ ["http://8.8.8.8/x"] :=
  ⟨by decide, by decide,
   C2_private_ip_policy.1 (fun _ => .ok "B") (fun _ => .ok "T") none
     "http://10.0.0.1/x" ⟨[], ["t0", "t1"], [], []⟩ (.v4 (ipv4Of 10 0 0 1))
     (by decide) (by decide) (by decide) (by decide),
   C2_private_ip_policy.2 (fun _ => .ok "B") (fun _ => .ok "T") none
     "http://8.8.8.8/x" ⟨[], ["t0", "t1"], [], []⟩ (by decide) (by decide)
     (Or.inr ⟨.v4 (ipv4Of 8 8 8 8), by decide, by decide⟩)⟩

/-- C3 (code bug): on a remote conversion whose fetch succeeds and whose
conversion engine raises, the transient input file created by the fetch
(`t0.md`, the only entry of the `created` log) is still present in the
file system when the call returns — the cleanup `os.unlink` runs only on
the success path, there is no `finally`. -/
theorem C3_transient_file_leaked_on_engine_error :
    convert_to_markdown (fun _ => .ok "BYTES") (fun _ => .error (.exception "engine failed"))
        none (some "http://example.com/a") ⟨[], ["t0", "t1"], [], []⟩ =
      (.error (.exception "Error processing to Markdown: engine failed"),
       ⟨[("t0.md", "BYTES")], ["t1"], ["http://example.com/a"], ["t0.md"]⟩)
    ∧ pathExists [("t0.md", "BYTES")] "t0.md" = true :=
  ⟨by decide, by decide⟩

/-- The conversion stage only ever appends to the `created` log, so the first
created name is preserved. -/
theorem convertStage_created_headD (engine : String → Except PyErr String)
    (ip : String) (tmp : Bool) (σ : ConvState) (a : String) (l : List String)
    (h : σ.created = a :: l) :
    ((convertStage engine ip tmp σ).2).created.headD "" = a := by
  rw [convertStage]
  cases engine ip
  · simp [h]
  · simp [save_to_temp_file, apply_ite ConvState.created, h]

/-- C7 amended: for a remote conversion that reaches a successful fetch,
the transient input file's extension is `pdf` exactly when the whole URL
string ends in `.pdf` (not its path component), and `md` otherwise: the
first created temp file is named by the drawn base name with that
suffix. -/
theorem C7_amended_extension_from_full_url :
    ∀ (fetch engine : String → Except PyErr String) (fp : Option String)
      (u content : String) (σ : ConvState),
      u ≠ "" →
      (strStartsWith u "http://" || strStartsWith u "https://") = true →
      is_private_ip (urlHostname u) = false →
      fetch u = .ok content →
      σ.created = [] →
      ((convert_to_markdown fetch engine fp (some u) σ).2).created.headD "" =
        σ.supply.headD "tmp" ++ "." ++ (if strEndsWith u ".pdf" then "pdf" else "md") := by
  intro fetch engine fp u content σ hu hsch hpriv hfetch hc
  rw [convert_to_markdown, wrapResult_snd]
  have hu' : (u != "") = true := by simp [hu]
  cases hpdf : strEndsWith u ".pdf" <;>
    simp only [convertBody, isTruthy, Option.getD, hu', hsch, Bool.not_true, if_false,
      Bool.false_eq_true, Bool.true_eq_false, hpriv, hfetch, if_true, hpdf,
      eq_self_iff_true, ite_true, ite_false] <;>
    (refine convertStage_created_headD _ _ _ _ _ [] ?_ ; simp [save_to_temp_file, hc])

/-- Witness for the amended C7: `https://example.com/doc.pdf` yields a
transient file named `t0.pdf`. -/
theorem C7_amended_extension_from_full_url_witness :
    (is_private_ip (urlHostname "https://example.com/doc.pdf") = false)
    ∧ ((convert_to_markdown (fun _ => .ok "B") (fun _ => .ok "T") none
        (some "https://example.com/doc.pdf") ⟨[], ["t0", "t1"], [], []⟩).2).created.headD "" =
      ("t0" : String) ++ "." ++ (if strEndsWith "https://example.com/doc.pdf" ".pdf" then "pdf" else "md") :=
  ⟨by decide,
   C7_amended_extension_from_full_url (fun _ => .ok "B") (fun _ => .ok "T") none
     "https://example.com/doc.pdf" "B" ⟨[], ["t0", "t1"], [], []⟩
     (by decide) (by decide) (by decide) (by decide) (by decide)⟩

/-- C7 counterexample: for `https://example.com/doc.pdf?download=1` the
URL's path component ends in `.pdf`, yet the transient input file is
created with a `.md` suffix (`t0.md`), because the source tests
`url.endswith(".pdf")` on the whole URL string, not on its path
component. -/
theorem C7_counterexample_query_suffix :
    strEndsWith (urlPathComponent "https://example.com/doc.pdf?download=1") ".pdf" = true
    ∧ strEndsWith "https://example.com/doc.pdf?download=1" ".pdf" = false
    ∧ ((convert_to_markdown (fun _ => .ok "B") (fun _ => .ok "T") none
        (some "https://example.com/doc.pdf?download=1") ⟨[], ["t0", "t1"], [], []⟩).2).created =
        ["t0.md", "t1.md"] :=
  ⟨by decide, by decide, by decide⟩

/-- Appending strings appends their character lists. -/
theorem str_data_append (s t : String) : (s ++ t).data = s.data ++ t.data := by
  cases s; cases t; rfl

/-- String append is cancellative on the right. -/
theorem str_append_right_cancel {a b c : String} (h : a ++ c = b ++ c) : a = b := by
  have h2 := congrArg String.data h
  rw [str_data_append, str_data_append] at h2
  exact congrArg String.mk (List.append_cancel_right h2)

/-- The last element of a list ending in three given elements. -/
theorem getLastD_append_three (l : List Char) (x y z : Char) :
    ∀ d, (l ++ [x, y, z]).getLastD d = z := by
  induction l with
  | nil => intro d; rfl
  | cons a as ih =>
    intro d
    rw [List.cons_append, List.getLastD_cons]
    exact ih a

/-- A string ending in `.md` never equals one ending in `.pdf`. -/
theorem append_md_ne_append_pdf (a b : String) : a ++ ".md" ≠ b ++ ".pdf" := by
  intro h
  have h2 := congrArg (fun s => s.data.getLastD ' ') h
  simp only [str_data_append] at h2
  have hsplit : ('.' :: 'p' :: 'd' :: 'f' :: ([] : List Char)) = ['.'] ++ ['p', 'd', 'f'] := rfl
  rw [hsplit, ← List.append_assoc] at h2
  rw [getLastD_append_three a.data '.' 'm' 'd' ' ',
    getLastD_append_three (b.data ++ ['.']) 'p' 'd' 'f' ' '] at h2
  exact absurd h2 (by decide)

/-- A list is a `List.isPrefixOf` of itself followed by anything. -/
theorem isPrefixOf_self_append (l₁ l₂ : List Char) : l₁.isPrefixOf (l₁ ++ l₂) = true := by
  induction l₁ with
  | nil => simp [List.isPrefixOf]
  | cons a as ih => simp [List.isPrefixOf, ih]

/-- Any string ends with its own suffix. -/
theorem strEndsWith_append (s t : String) : strEndsWith (s ++ t) t = true := by
  simp [strEndsWith, str_data_append, List.isSuffixOf, List.reverse_append,
    isPrefixOf_self_append]

/-- Reassociating the suffix appended by `_save_to_temp_file` for `md`. -/
theorem dot_md_assoc (b : String) : b ++ "." ++ "md" = b ++ ".md" := by
  rw [String.append_assoc]
  have h : ("." : String) ++ "md" = ".md" := by decide
  rw [h]

/-- Reassociating the suffix appended by `_save_to_temp_file` for `pdf`. -/
theorem dot_pdf_assoc (b : String) : b ++ "." ++ "pdf" = b ++ ".pdf" := by
  rw [String.append_assoc]
  have h : ("." : String) ++ "pdf" = ".pdf" := by decide
  rw [h]

/-- If the wrapper returned a success, the body returned that success. -/
theorem wrapResult_eq_ok {r : Except PyErr (String × String) × ConvState}
    {v : String × String} {σ2 : ConvState} (h : wrapResult r = (.ok v, σ2)) :
    r = (.ok v, σ2) := by
  obtain ⟨a, σ⟩ := r
  cases a with
  | error e => simp [wrapResult] at h
  | ok w => simpa [wrapResult] using h

/-- Looking up a key at the head of a filtered association list whose
filter removes a different key. -/
theorem lookup_filter_cons (P iP T : String) (l : List (String × String))
    (hne : P ≠ iP) :
    List.lookup P (((P, T) :: l).filter (fun kv => kv.1 != iP)) = some T := by
  simp [List.filter_cons, hne, List.lookup]

/-- A membership-style sufficient condition for `_get_markdown_file` to
succeed: the path is already normalized, carries an accepted extension, is
the first association for itself in the file system, and the share gate
passes. -/
theorem get_markdown_file_ok (env : String → Option String)
    (fs : List (String × String)) (P T : String)
    (hext : allowedExtensions.any (fun ext => strEndsWith P ext) = true)
    (hnorm : normalize_path env P = P)
    (hlook : List.lookup P fs = some T)
    (hshare : sharePasses env P) :
    get_markdown_file env fs P = .ok (P, T) := by
  simp only [get_markdown_file, hnorm, hext, pathExists, hlook]
  cases hmd : env "MD_SHARE_DIR" with
  | none => simp
  | some d =>
    simp only [sharePasses, hmd] at hshare
    rcases hshare with hd | hcp
    · simp [hd]
    · by_cases hd0 : d = ""
      · simp [hd0]
      · simp [hd0, hcp]

/-- C6 round-trip: whenever a conversion succeeds with stored path `P` and
markdown text `T` (for any request and any oracles), a subsequent
retrieval of `P` against the resulting file system — under any environment
whose share gate admits `P` (in particular none configured) and in which
`P` is normalization-stable — succeeds and returns exactly `T`.  The
freshness hypothesis models `tempfile.NamedTemporaryFile` never handing
out the same name twice. -/
theorem C6_roundtrip_conversion_then_retrieval :
    ∀ (fetch engine : String → Except PyErr String) (fp u? : Option String)
      (σ σ2 : ConvState) (P T : String) (env : String → Option String),
      σ.supply.headD "tmp" ≠ σ.supply.tail.headD "tmp" →
      convert_to_markdown fetch engine fp u? σ = (.ok (P, T), σ2) →
      normalize_path env P = P →
      sharePasses env P →
      get_markdown_file env σ2.fs P = .ok (P, T) := by
  intro fetch engine fp u? σ σ2 P T env hfresh hconv hnorm hshare
  rw [convert_to_markdown] at hconv
  have hbody := wrapResult_eq_ok hconv
  simp only [convertBody] at hbody
  split at hbody
  · -- url branch
    split at hbody
    · simp at hbody
    · split at hbody
      · simp at hbody
      · -- scheme ok, not private: fetch
        split at hbody
        · simp at hbody
        · -- fetch succeeded; engine stage
          rename_i content _
          cases hpdf : strEndsWith (u?.getD "") ".pdf"
          · -- whole URL does not end in .pdf: transient extension md
            simp only [hpdf, Bool.false_eq_true, Bool.true_eq_false, if_true, if_false,
              ite_true, ite_false, eq_self_iff_true] at hbody
            rw [convertStage] at hbody
            split at hbody
            · simp at hbody
            · rename_i text _
              simp only [save_to_temp_file, Prod.mk.injEq, Except.ok.injEq, ite_self] at hbody
              obtain ⟨⟨hP, hT⟩, hσ⟩ := hbody
              subst hT
              subst hσ
              subst hP
              refine get_markdown_file_ok env _ _ _ ?_ hnorm ?_ hshare
              · rw [dot_md_assoc]
                simp [allowedExtensions, strEndsWith_append]
              · split
                · refine lookup_filter_cons _ _ _ _ ?_
                  rw [dot_md_assoc, dot_md_assoc]
                  intro hcontr
                  exact hfresh (str_append_right_cancel hcontr).symm
                · simp [List.lookup]
          · -- whole URL ends in .pdf: transient extension pdf
            simp only [hpdf, Bool.false_eq_true, Bool.true_eq_false, if_true, if_false,
              ite_true, ite_false, eq_self_iff_true] at hbody
            rw [convertStage] at hbody
            split at hbody
            · simp at hbody
            · rename_i text _
              simp only [save_to_temp_file, Prod.mk.injEq, Except.ok.injEq, ite_self] at hbody
              have hpd : (if ("pdf" : String) = "" then "md" else "pdf") = "pdf" := by decide
              rw [hpd] at hbody
              obtain ⟨⟨hP, hT⟩, hσ⟩ := hbody
              subst hT
              subst hσ
              subst hP
              refine get_markdown_file_ok env _ _ _ ?_ hnorm ?_ hshare
              · rw [dot_md_assoc]
                simp [allowedExtensions, strEndsWith_append]
              · split
                · refine lookup_filter_cons _ _ _ _ ?_
                  rw [dot_md_assoc, dot_pdf_assoc]
                  exact append_md_ne_append_pdf _ _
                · simp [List.lookup]
  · -- filepath branch
    split at hbody
    · rw [convertStage] at hbody
      split at hbody
      · simp at hbody
      · rename_i text _
        simp only [save_to_temp_file, Prod.mk.injEq, Except.ok.injEq, ite_self,
          Bool.false_and, Bool.false_eq_true, if_false, ite_false] at hbody
        obtain ⟨⟨hP, hT⟩, hσ⟩ := hbody
        subst hT
        subst hσ
        subst hP
        refine get_markdown_file_ok env _ _ _ ?_ hnorm ?_ hshare
        · rw [dot_md_assoc]
          simp [allowedExtensions, strEndsWith_append]
        · simp [List.lookup]
    · simp at hbody

/-- Witness for C6: a remote `.pdf` conversion stores its text at `t1.md`,
and retrieval of `t1.md` with no share root returns the same text. -/
theorem C6_roundtrip_conversion_then_retrieval_witness :
    convert_to_markdown (fun _ => .ok "B") (fun _ => .ok "T") none
        (some "https://example.com/doc.pdf") ⟨[], ["t0", "t1"], [], []⟩ =
      (.ok ("t1.md", "T"),
       ⟨[("t1.md", "T")], [], ["https://example.com/doc.pdf"], ["t0.pdf", "t1.md"]⟩)
    ∧ get_markdown_file (fun _ => none)
        (⟨[("t1.md", "T")], [], ["https://example.com/doc.pdf"], ["t0.pdf", "t1.md"]⟩ : ConvState).fs
        "t1.md" = .ok ("t1.md", "T") :=
  ⟨by decide,
   C6_roundtrip_conversion_then_retrieval (fun _ => .ok "B") (fun _ => .ok "T") none
     (some "https://example.com/doc.pdf") ⟨[], ["t0", "t1"], [], []⟩
     ⟨[("t1.md", "T")], [], ["https://example.com/doc.pdf"], ["t0.pdf", "t1.md"]⟩
     "t1.md" "T" (fun _ => none) (by decide) (by decide) (by decide) trivial⟩
